import Mathlib

/-!
Shallow embedding of the payment-gated service core of the `ai-agentic-wallet`
repository (`main.py`): the `RateLimiter`, the `TransactionStore` aggregate
queries, the `CircleWallet.transfer_usdc` boundary, the
`PaidAPIService.call_service` state machine, and the orchestrator's keyword
routing.  Python floats are embedded as exact rationals (`ℚ`), Python strings
as Lean `String` (lists of characters), SQLite persistence as an in-memory
list of records, and the monotonic clock as an explicit `ℚ`-valued time
argument.  Remote effects (the Circle SDK client, `uuid4`, `random`) are
passed in explicitly as environment data so every function is pure and
executable.
-/

unseal Rat.ofScientific Rat.add Rat.sub Rat.mul Rat.inv

namespace AgenticWallet

/-- Embedding of Python regex class `\w` (word character) for the code points
the repository exercises: ASCII alphanumerics and underscore.  (Python's class
is Unicode-aware; all catalog names, addresses and example inputs are ASCII.) -/
def pyWordChar (c : Char) : Bool :=
  c.isAlphanum || c == '_'

/-- Embedding of Python regex class `\s` on the Latin-1 range: space, tab,
newline, vertical tab, form feed, carriage return, the separator control
characters x1c-x1f, next-line x85 and no-break space xa0. -/
def pySpaceChar (c : Char) : Bool :=
  c == ' ' || c == Char.ofNat 9 || c == Char.ofNat 10 || c == Char.ofNat 11 ||
  c == Char.ofNat 12 || c == Char.ofNat 13 ||
  (decide (28 ≤ c.toNat) && decide (c.toNat ≤ 31)) ||
  c == Char.ofNat 133 || c == Char.ofNat 160

/-- Characters kept by `PaidAPIService._sanitize`'s substitution
`re.sub(r"[^\w\s.,!?'-]", "", value)`: word characters, whitespace and the
six listed punctuation marks; every other character is deleted. -/
def keepChar (c : Char) : Bool :=
  pyWordChar c || pySpaceChar c || c == '.' || c == ',' || c == '!' ||
  c == '?' || c == Char.ofNat 39 || c == '-'

/-- `PaidAPIService._MAX_PARAM_LEN` from the source. -/
def MAX_PARAM_LEN : Nat := 200

/-- `PaidAPIService._sanitize`: strip the characters rejected by the regex
class, then slice to the first `_MAX_PARAM_LEN` characters. -/
def sanitize (value : String) : String :=
  String.mk ((value.data.filter keepChar).take MAX_PARAM_LEN)

/-- Embedding of Python's substring containment `needle in hay`. -/
def containsSub (needle : List Char) : List Char → Bool
  | [] => needle.isEmpty
  | c :: rest => needle.isPrefixOf (c :: rest) || containsSub needle rest

/-- Embedding of `str.lower()` (ASCII case folding). -/
def lowerStr (s : String) : String :=
  String.mk (s.data.map Char.toLower)

/-- Embedding of `str.upper()` (ASCII case folding). -/
def upperStr (s : String) : String :=
  String.mk (s.data.map Char.toUpper)

/-- First `n` characters of a string (Python slice `s[:n]`). -/
def takeStr (n : Nat) (s : String) : String :=
  String.mk (s.data.take n)

/-- `kw in query.lower()` as used by the orchestrator's routing. -/
def hasKw (query kw : String) : Bool :=
  containsSub kw.data (lowerStr query).data

/-- State of `main.RateLimiter`: configured maximum, window length in
seconds, and the recorded monotonic call timestamps `_calls`. -/
structure RateLimiter where
  max_calls : Nat
  period : ℚ
  calls : List ℚ
deriving DecidableEq

/-- `RateLimiter._prune`: drop every timestamp `t` with `now - t >= period`,
keeping exactly those with `now - t < period`. -/
def RateLimiter.prune (rl : RateLimiter) (now : ℚ) : RateLimiter :=
  { rl with calls := rl.calls.filter (fun t => decide (now - t < rl.period)) }

/-- `RateLimiter.allow`: prune, then admit (recording `now`) exactly when
fewer than `max_calls` timestamps remain in the window.  Returns the boolean
result together with the successor state (the Python method mutates
`self`). -/
def RateLimiter.allow (rl : RateLimiter) (now : ℚ) : Bool × RateLimiter :=
  let p := rl.prune now
  if p.calls.length < rl.max_calls then
    (true, { p with calls := p.calls ++ [now] })
  else
    (false, p)

/-- `RateLimiter.remaining`: prune (a mutation in the Python property), then
report `max(0, max_calls - len(_calls))`. -/
def RateLimiter.remaining (rl : RateLimiter) (now : ℚ) : ℤ × RateLimiter :=
  let p := rl.prune now
  (max 0 ((rl.max_calls : ℤ) - (p.calls.length : ℤ)), p)

/-- One observable interaction with a `RateLimiter`, tagged with the
monotonic-clock reading at which it happens. -/
inductive LimiterOp where
  | allowOp (now : ℚ)
  | remainingOp (now : ℚ)
deriving DecidableEq

/-- Run a sequence of limiter interactions, threading the state. -/
def runOps (rl : RateLimiter) : List LimiterOp → RateLimiter
  | [] => rl
  | LimiterOp.allowOp t :: rest => runOps (rl.allow t).2 rest
  | LimiterOp.remainingOp t :: rest => runOps (rl.remaining t).2 rest

/-- Hexadecimal digit, the regex class `[0-9a-fA-F]`. -/
def isHexDigitA (c : Char) : Bool :=
  c.isDigit || (("abcdefABCDEF").data).contains c

/-- Exactly 40 hexadecimal characters (the regex piece `[0-9a-fA-F]{40}`). -/
def addressCore (l : List Char) : Bool :=
  l.length == 40 && l.all isHexDigitA

/-- The address format the specification states: the literal `0x` followed by
exactly 40 hexadecimal characters and nothing else. -/
def specAddressFormat (s : String) : Bool :=
  s.data.take 2 == ("0x").data && addressCore (s.data.drop 2)

/-- Embedding of `CircleWallet._ADDRESS_RE.match`, i.e. Python's
`re.match(r"^0x[0-9a-fA-F]{40}$", s)`: in Python the `$` anchor also matches
just before a newline at the very end of the string, so the pattern accepts
both `0x` + 40 hex digits and `0x` + 40 hex digits + `"\n"`. -/
def pyAddressMatch (s : String) : Bool :=
  s.data.take 2 == ("0x").data &&
  (addressCore (s.data.drop 2) ||
   (addressCore ((s.data.drop 2).take 40) && (s.data.drop 2).length == 41 &&
    (s.data.drop 2).getLastD (Char.ofNat 0) == Char.ofNat 10))

/-- What the remote Circle client (`client.create_transaction`) would do if
invoked: return a transaction hash, or raise an exception with a message. -/
inductive RemoteOutcome where
  | ok (txHash : String)
  | exn (msg : String)
deriving DecidableEq

/-- Result dictionary of `CircleWallet.transfer_usdc`: either the success
shape `{"success": True, "tx_hash", "amount", "to", "description"}` (with
`"mode": "demo"` in the simulated branch, tracked by `demoMode`), or the
failure shape `{"success": False, "error"}`.  The wall-clock `timestamp`
field is not modelled. -/
inductive TransferResult where
  | ok (tx_hash : String) (amount : ℚ) (toAddr : String) (description : String)
      (demoMode : Bool)
  | err (msg : String)
deriving DecidableEq

/-- Truthiness of `payment.get("success")`. -/
def TransferResult.success : TransferResult → Bool
  | .ok _ _ _ _ _ => true
  | .err _ => false

/-- `payment.get("tx_hash", "")`. -/
def TransferResult.tx_hash : TransferResult → String
  | .ok h _ _ _ _ => h
  | .err _ => ""

/-- `CircleWallet._demo_transfer`: always succeeds with the synthetic hash
`"0xDEMO" + uuid4().hex[:56]` and the demo-mode tag.  `uuidHex` is the
`uuid4().hex` value drawn by the call. -/
def demo_transfer (uuidHex toAddr description : String) (amount : ℚ) :
    TransferResult :=
  .ok (("0xDEMO") ++ takeStr 56 uuidHex) amount toAddr description true

/-- `CircleWallet.transfer_usdc`.  `hasClient` is whether `self.client` and
`self.wallet_id` are both set; `remote` is the behaviour of the remote client
if it is consulted; the second component records whether the remote client
was actually invoked.  The two local validations fail fast; the demo branch
delegates to `_demo_transfer`; an exception from the remote client is caught
and converted to the failure shape. -/
def transfer_usdc (hasClient : Bool) (remote : RemoteOutcome)
    (uuidHex : String) (to_address : String) (amount : ℚ)
    (description : String) : TransferResult × Bool :=
  if pyAddressMatch to_address = false then
    (.err (("Invalid address format: ") ++ to_address), false)
  else if amount ≤ 0 then
    (.err ("Amount must be positive"), false)
  else if hasClient = false then
    (demo_transfer uuidHex to_address description amount, false)
  else
    match remote with
    | .ok h => (.ok h amount to_address description false, true)
    | .exn m => (.err m, true)

/-- A primitive parameter value as passed in the `params` dict of
`call_service`: a Python `str`, `int`, `float` (embedded as an exact
rational), `bool` or `None`. -/
inductive PValue where
  | str (s : String)
  | intv (n : ℤ)
  | float (q : ℚ)
  | boolv (b : Bool)
  | none
deriving DecidableEq

/-- `self._sanitize(v) if isinstance(v, str) else v`. -/
def sanitizeValue : PValue → PValue
  | .str s => .str (sanitize s)
  | v => v

/-- The dict comprehension building `sanitized_params` in `call_service`. -/
def sanitizedParams (params : List (String × PValue)) :
    List (String × PValue) :=
  params.map (fun kv => (kv.1, sanitizeValue kv.2))

/-- `PaidAPIService.SERVICE_COSTS` (costs as exact rationals). -/
def SERVICE_COSTS : List (String × ℚ) :=
  [(("weather"), 0.001), (("stock"), 0.002), (("news"), 0.003),
   (("translation"), 0.005)]

/-- `PaidAPIService.SERVICE_ADDRESSES`. -/
def SERVICE_ADDRESSES : List (String × String) :=
  [(("weather"), ("0x1234567890abcdef1234567890abcdef12345678")),
   (("stock"), ("0xabcdef1234567890abcdef1234567890abcdef12")),
   (("news"), ("0xfedcba0987654321fedcba0987654321fedcba09")),
   (("translation"), ("0x1111111111111111111111111111111111111111"))]

/-- Catalog cost of a service (`SERVICE_COSTS[name]`, defaulting to 0 for a
name outside the catalog — `call_service` only reads it after the
membership check). -/
def costOf (name : String) : ℚ :=
  (SERVICE_COSTS.lookup name).getD 0

/-- `params.get(key, default)`. -/
def getParam (params : List (String × PValue)) (key : String) (d : PValue) :
    PValue :=
  (params.lookup key).getD d

/-- Python `str(v)` for the primitive values (used in f-string
interpolation; the rational rendering stands in for Python float `repr`). -/
def pvalToString : PValue → String
  | .str s => s
  | .intv n => toString n
  | .float q => toString q
  | .boolv true => ("True")
  | .boolv false => ("False")
  | PValue.none => ("None")

/-- `str.upper()` applied to a parameter value when it is a string (the
source calls `.upper()` on the symbol parameter). -/
def pvalUpper : PValue → PValue
  | .str s => .str (upperStr s)
  | v => v

/-- Result dictionary of `PaidAPIService._execute_service`, one constructor
per service branch.  Constant fields (weather temperature/condition/…, the
`language_pair` prefix) are kept only where a claim can observe them; the
stock figures come from `random`, passed in through the environment. -/
inductive ExecResult where
  | weather (city : PValue)
  | stock (symbol : PValue) (price change : ℚ) (volume : ℤ)
  | news (topic : PValue) (headlines : List String)
  | translation (original : PValue) (translated : String)
      (language_pair : String)
  | notImplemented
deriving DecidableEq

/-- Environment data for one `call_service` invocation: the wallet mode and
remote behaviour, the `uuid4().hex` draw, and the `random` draws of the
stock branch. -/
structure Env where
  hasClient : Bool
  remote : RemoteOutcome
  uuidHex : String
  stockPrice : ℚ
  stockChange : ℚ
  stockVolume : ℤ
deriving DecidableEq

/-- `PaidAPIService._execute_service` (the simulated demo generator). -/
def execute_service (env : Env) (service : String)
    (params : List (String × PValue)) : ExecResult :=
  if service == ("weather") then
    .weather (getParam params ("city") (.str ("Unknown")))
  else if service == ("stock") then
    .stock (pvalUpper (getParam params ("symbol") (.str ("AAPL"))))
      env.stockPrice env.stockChange env.stockVolume
  else if service == ("news") then
    let topic := getParam params ("topic") (.str ("technology"))
    .news topic
      [("Breaking: AI makes breakthrough in ") ++ pvalToString topic,
       ("Market update: ") ++ pvalToString topic ++
         (" sector sees major growth"),
       ("Experts predict future of ") ++ pvalToString topic]
  else if service == ("translation") then
    let text := getParam params ("text") (.str (""))
    let target := getParam params ("target_language") (.str ("es"))
    .translation text
      (("[") ++ pvalToString target ++ ("] ") ++ pvalToString text)
      (("en-") ++ pvalToString target)
  else
    .notImplemented

/-- One row of the `transactions` table as written by
`TransactionStore.record_transaction` (the autoincrement id and wall-clock
`created_at` column are not modelled; insertion order is the list order). -/
structure Record where
  service : String
  params : List (String × PValue)
  cost : ℚ
  tx_hash : String
  result : ExecResult
deriving DecidableEq

/-- `TransactionStore.get_total_spent`: `SELECT COALESCE(SUM(cost_usdc), 0)`
over the transactions table. -/
def get_total_spent (store : List Record) : ℚ :=
  (store.map Record.cost).sum

/-- Mutable state threaded through `call_service`: the rate limiter, the
persisted `transactions` table, and the legacy in-memory
`call_history` mirror. -/
structure ServiceState where
  limiter : RateLimiter
  store : List Record
  call_history : List Record
deriving DecidableEq

/-- Which side effects a `call_service` invocation performed. -/
structure CallEffects where
  admissionChecked : Bool
  admitted : Bool
  paymentAttempted : Bool
  remoteCalled : Bool
  serviceExecuted : Bool
  recordsWritten : Nat
deriving DecidableEq

/-- Return value of `call_service`: the `{"error": ...}` dict, the
`{"error": "Payment failed", "details": payment}` dict, or the success dict
`{"success": True, "result", "cost_usdc", "tx_hash"}`. -/
inductive CallResult where
  | error (msg : String)
  | errorPayment (msg : String) (details : TransferResult)
  | ok (result : ExecResult) (cost_usdc : ℚ) (tx_hash : String)
deriving DecidableEq

/-- Truthiness of `result.get("success")`. -/
def CallResult.isOk : CallResult → Bool
  | .ok _ _ _ => true
  | _ => false

/-- The Pay step of `call_service`: `wallet.transfer_usdc` invoked with the
catalog destination `SERVICE_ADDRESSES[service_name]`, the catalog cost, and
the description f-string `"{service_name} API call"`. -/
def payOf (env : Env) (service_name : String) (cost : ℚ) :
    TransferResult × Bool :=
  transfer_usdc env.hasClient env.remote env.uuidHex
    ((SERVICE_ADDRESSES.lookup service_name).getD ("")) cost
    (service_name ++ (" API call"))

/-- `PaidAPIService.call_service`, straight-line embedding of the source's
sequence: catalog lookup, rate-limiter admission, sanitization, payment,
service execution, persistence (and the in-memory mirror append).  Returns
the result dict, the successor state and the effect trace. -/
def call_service (env : Env) (now : ℚ) (st : ServiceState)
    (service_name : String) (params : List (String × PValue)) :
    CallResult × ServiceState × CallEffects :=
  match SERVICE_COSTS.lookup service_name with
  | Option.none =>
      (.error (("Unknown service: ") ++ service_name), st,
       ⟨false, false, false, false, false, 0⟩)
  | Option.some cost =>
      let a := st.limiter.allow now
      if a.1 = false then
        (.error ("Rate limit exceeded. Please try again later."),
         { st with limiter := a.2 }, ⟨true, false, false, false, false, 0⟩)
      else
        let sp := sanitizedParams params
        let pay := payOf env service_name cost
        if pay.1.success = false then
          (.errorPayment ("Payment failed") pay.1, { st with limiter := a.2 },
           ⟨true, true, true, pay.2, false, 0⟩)
        else
          let result := execute_service env service_name sp
          let tx := pay.1.tx_hash
          let record : Record := ⟨service_name, sp, cost, tx, result⟩
          (.ok result cost tx,
           { limiter := a.2, store := st.store ++ [record],
             call_history := st.call_history ++ [record] },
           ⟨true, true, true, pay.2, true, 1⟩)

/-- Input of one `call_service` invocation in a run. -/
structure CallInput where
  env : Env
  now : ℚ
  service_name : String
  params : List (String × PValue)
deriving DecidableEq

/-- Run a sequence of `call_service` invocations, collecting the results. -/
def runCalls (st : ServiceState) : List CallInput → List CallResult × ServiceState
  | [] => ([], st)
  | i :: rest =>
      let o := call_service i.env i.now st i.service_name i.params
      let r := runCalls o.2.1 rest
      (o.1 :: r.1, r.2)

/-- Intent classes of the orchestrator's keyword routing. -/
inductive Intent where
  | weather | stock | news | balance | history | fallback
deriving DecidableEq

/-- Keyword classification performed by
`AgenticOrchestrator._execute_from_ai_response` over `query.lower()`:
weather, then stock/price/ticker, then news, then balance/wallet, then
history, else the fallback text. -/
def ai_intent (query : String) : Intent :=
  if hasKw query ("weather") then .weather
  else if hasKw query ("stock") || hasKw query ("price") ||
      hasKw query ("ticker") then .stock
  else if hasKw query ("news") then .news
  else if hasKw query ("balance") || hasKw query ("wallet") then .balance
  else if hasKw query ("history") then .history
  else .fallback

/-- Keyword classification performed by `AgenticOrchestrator._basic_routing`
over `query.lower()`: balance first, then weather, stock, news, history,
else the help text. -/
def basic_intent (query : String) : Intent :=
  if hasKw query ("balance") then .balance
  else if hasKw query ("weather") then .weather
  else if hasKw query ("stock") then .stock
  else if hasKw query ("news") then .news
  else if hasKw query ("history") then .history
  else .fallback

/-- Demo-mode environment used by concrete witnesses: no Circle client, a
fixed `uuid4().hex` draw and fixed `random` draws. -/
def demoEnv : Env :=
  ⟨false, .ok (""), ("0123456789abcdef"), 250, 2, 5000000⟩

/-- Fresh service state: limiter as configured, empty store and history. -/
def freshState (n : Nat) (t : ℚ) : ServiceState :=
  ⟨⟨n, t, []⟩, [], []⟩

/-! Rate limiter lemmas. -/

theorem prune_max (rl : RateLimiter) (now : ℚ) :
    (rl.prune now).max_calls = rl.max_calls := rfl

theorem prune_len_le (rl : RateLimiter) (now : ℚ) :
    (rl.prune now).calls.length ≤ rl.calls.length :=
  List.length_filter_le _ _

theorem allow_snd_max (rl : RateLimiter) (now : ℚ) :
    (rl.allow now).2.max_calls = rl.max_calls := by
  unfold RateLimiter.allow
  dsimp only
  split <;> rfl

theorem allow_snd_period (rl : RateLimiter) (now : ℚ) :
    (rl.allow now).2.period = rl.period := by
  unfold RateLimiter.allow
  dsimp only
  split <;> rfl

theorem allow_true_iff (rl : RateLimiter) (now : ℚ) :
    (rl.allow now).1 = true ↔ (rl.prune now).calls.length < rl.max_calls := by
  unfold RateLimiter.allow
  dsimp only
  split <;> simp_all

theorem allow_true_snd (rl : RateLimiter) (now : ℚ)
    (h : (rl.allow now).1 = true) :
    (rl.allow now).2.calls = (rl.prune now).calls ++ [now] := by
  by_cases hc : (rl.prune now).calls.length < rl.max_calls
  · unfold RateLimiter.allow
    dsimp only
    rw [if_pos hc]
  · exfalso
    unfold RateLimiter.allow at h
    dsimp only at h
    rw [if_neg hc] at h
    simp at h

theorem allow_false_snd (rl : RateLimiter) (now : ℚ)
    (h : (rl.allow now).1 = false) :
    (rl.allow now).2 = rl.prune now := by
  by_cases hc : (rl.prune now).calls.length < rl.max_calls
  · exfalso
    unfold RateLimiter.allow at h
    dsimp only at h
    rw [if_pos hc] at h
    simp at h
  · unfold RateLimiter.allow
    dsimp only
    rw [if_neg hc]

theorem prune_calls_filter (rl : RateLimiter) (now : ℚ) :
    (rl.prune now).calls.filter (fun t => decide (now - t < rl.period)) =
      (rl.prune now).calls := by
  show (rl.calls.filter _).filter _ = rl.calls.filter _
  rw [List.filter_filter]
  simp

theorem allow_len (rl : RateLimiter) (now : ℚ)
    (h : rl.calls.length ≤ rl.max_calls) :
    (rl.allow now).2.calls.length ≤ rl.max_calls := by
  unfold RateLimiter.allow
  dsimp only
  split
  · next hlt => simp; omega
  · next hge =>
    calc (rl.prune now).calls.length ≤ rl.calls.length := prune_len_le rl now
      _ ≤ rl.max_calls := h

theorem runOps_max (ops : List LimiterOp) : ∀ rl : RateLimiter,
    (runOps rl ops).max_calls = rl.max_calls := by
  induction ops with
  | nil => intro rl; rfl
  | cons op rest ih =>
    intro rl
    cases op with
    | allowOp t =>
      show (runOps (rl.allow t).2 rest).max_calls = rl.max_calls
      rw [ih, allow_snd_max]
    | remainingOp t =>
      show (runOps (rl.remaining t).2 rest).max_calls = rl.max_calls
      rw [ih]
      rfl

theorem runOps_bound (ops : List LimiterOp) : ∀ rl : RateLimiter,
    rl.calls.length ≤ rl.max_calls →
    (runOps rl ops).calls.length ≤ rl.max_calls := by
  induction ops with
  | nil => intro rl h; exact h
  | cons op rest ih =>
    intro rl h
    cases op with
    | allowOp t =>
      show (runOps (rl.allow t).2 rest).calls.length ≤ rl.max_calls
      have h2 : (rl.allow t).2.calls.length ≤ (rl.allow t).2.max_calls := by
        rw [allow_snd_max]; exact allow_len rl t h
      have := ih (rl.allow t).2 h2
      rwa [allow_snd_max] at this
    | remainingOp t =>
      show (runOps (rl.remaining t).2 rest).calls.length ≤ rl.max_calls
      have h2 : (rl.remaining t).2.calls.length ≤ (rl.remaining t).2.max_calls := by
        show (rl.prune t).calls.length ≤ rl.max_calls
        exact le_trans (prune_len_le rl t) h
      have := ih (rl.remaining t).2 h2
      exact this

/-- Claim C2: `allow()` returns true and appends the call timestamp exactly
when, after pruning entries older than `period` relative to the monotonic
clock, fewer than `max_calls` timestamps remain in the window, and otherwise
returns false and records nothing; `remaining` is never negative and (for a
positive window) drops by one for each allowed call evaluated at the same
clock reading; with `max_calls = 0`, `allow()` is always false and
`remaining` is always 0. -/
theorem claim_C2 (rl : RateLimiter) (now : ℚ) :
    ((rl.allow now).1 = true ↔
      (rl.prune now).calls.length < rl.max_calls) ∧
    ((rl.allow now).1 = true →
      (rl.allow now).2.calls = (rl.prune now).calls ++ [now]) ∧
    ((rl.allow now).1 = false →
      (rl.allow now).2.calls = (rl.prune now).calls) ∧
    (0 ≤ (rl.remaining now).1) ∧
    (0 < rl.period → (rl.allow now).1 = true →
      ((rl.allow now).2.remaining now).1 = (rl.remaining now).1 - 1) ∧
    (rl.max_calls = 0 →
      (rl.allow now).1 = false ∧ (rl.remaining now).1 = 0) := by
  refine ⟨allow_true_iff rl now, allow_true_snd rl now,
    (fun h => by rw [allow_false_snd rl now h]), le_max_left 0 _, ?_, ?_⟩
  · intro hper htrue
    have hlt : (rl.prune now).calls.length < rl.max_calls :=
      (allow_true_iff rl now).mp htrue
    have hcalls : (rl.allow now).2.calls = (rl.prune now).calls ++ [now] :=
      allow_true_snd rl now htrue
    show (max 0 ((((rl.allow now).2.max_calls : ℤ)) -
        (((rl.allow now).2.prune now).calls.length : ℤ))) = _
    have hpc : ((rl.allow now).2.prune now).calls =
        (rl.prune now).calls ++ [now] := by
      show (rl.allow now).2.calls.filter
          (fun t => decide (now - t < (rl.allow now).2.period)) = _
      rw [hcalls, allow_snd_period, List.filter_append, prune_calls_filter]
      simp [sub_self, hper]
    rw [allow_snd_max, hpc]
    show _ = max 0 ((rl.max_calls : ℤ) - ((rl.prune now).calls.length : ℤ)) - 1
    simp only [List.length_append, List.length_cons, List.length_nil]
    have h1 : (0:ℤ) ≤ (rl.max_calls : ℤ) -
        (((rl.prune now).calls.length : ℤ) + 1) := by
      omega
    have h2 : (0:ℤ) ≤ (rl.max_calls : ℤ) -
        ((rl.prune now).calls.length : ℤ) := by
      omega
    rw [max_eq_right h2]
    push_cast
    rw [max_eq_right (by omega)]
    ring
  · intro h0
    constructor
    · rcases hb : (rl.allow now).1 with _ | _
      · rfl
      · have := (allow_true_iff rl now).mp hb
        omega
    · show max 0 ((rl.max_calls : ℤ) - _) = 0
      rw [h0]
      rw [max_eq_left (by push_cast; omega)]

/-- Witness for C2 at a concrete limiter: with `max_calls = 2`, `period = 60`
and an empty window, one allowed call at time 0 drops `remaining` from 2 to
1; with `max_calls = 0` the first call is denied. -/
theorem claim_C2_witness :
    ((((RateLimiter.mk 2 60 []).allow 0).2.remaining 0).1 =
      ((RateLimiter.mk 2 60 []).remaining 0).1 - 1) ∧
    ((RateLimiter.mk 0 60 []).allow 0).1 = false := by
  constructor
  · exact (claim_C2 (RateLimiter.mk 2 60 []) 0).2.2.2.2.1 (by norm_num)
      (by decide)
  · exact ((claim_C2 (RateLimiter.mk 0 60 []) 0).2.2.2.2.2 rfl).1

/-- Claim C9: however a limiter constructed with `max_calls = N` is driven
by `allow()` calls and `remaining` evaluations, the stored timestamp list
never holds more than `N` entries. -/
theorem claim_C9 (N : ℕ) (T : ℚ) (ops : List LimiterOp) :
    (runOps (RateLimiter.mk N T []) ops).calls.length ≤ N :=
  runOps_bound ops (RateLimiter.mk N T []) (Nat.zero_le N)

/-! Wallet boundary lemmas and claims. -/

theorem spec_implies_py (s : String) (h : specAddressFormat s = true) :
    pyAddressMatch s = true := by
  unfold specAddressFormat at h
  unfold pyAddressMatch
  rw [Bool.and_eq_true] at h
  simp [h.1, h.2]

theorem isPrefixOf_self_append (l t : List Char) :
    l.isPrefixOf (l ++ t) = true := by
  induction l with
  | nil => simp [List.isPrefixOf]
  | cons c rest ih => simp [List.isPrefixOf, ih]

/-- Claim C4 is a code bug: `_ADDRESS_RE` is anchored with `$`, which in
Python also matches just before a final newline, so the destination
`"0x" + 40 hex digits + "\n"` — which does not have the documented
`0x`+40-hex format — passes local validation.  In demo mode the transfer
then reports success, and in live mode the remote client is invoked, where
the claim requires a local `success=false` with no remote call.  (For a
plainly malformed destination the local fail-fast behaves as claimed.) -/
theorem claim_C4 :
    specAddressFormat
      ("0x1234567890abcdef1234567890abcdef12345678\n") = false ∧
    pyAddressMatch
      ("0x1234567890abcdef1234567890abcdef12345678\n") = true ∧
    (transfer_usdc false (.ok ("h")) ("u")
      ("0x1234567890abcdef1234567890abcdef12345678\n") 1
      ("d")).1.success = true ∧
    (transfer_usdc true (.ok ("remotehash")) ("u")
      ("0x1234567890abcdef1234567890abcdef12345678\n") 1
      ("d")).2 = true ∧
    (transfer_usdc false (.ok ("h")) ("u") ("not-a-valid-address") 1
      ("d")).1.success = false ∧
    (transfer_usdc false (.ok ("h")) ("u") ("not-a-valid-address") 1
      ("d")).2 = false := by
  decide

/-- Claim C8: with no remote client configured, `transfer_usdc` on a
well-formed destination and positive amount always succeeds with the
synthetic reference `"0xDEMO" + uuid4().hex[:56]` (hence a non-empty hash
starting with `0xDEMO`), and in demo mode a failure result occurs exactly
when one of the two local validations fails. -/
theorem claim_C8 (remote : RemoteOutcome)
    (uuidHex to_address description : String) (amount : ℚ) :
    (specAddressFormat to_address = true → 0 < amount →
      (transfer_usdc false remote uuidHex to_address amount description).1 =
        .ok (("0xDEMO") ++ takeStr 56 uuidHex) amount to_address
          description true ∧
      (("0xDEMO").data).isPrefixOf
        ((("0xDEMO") ++ takeStr 56 uuidHex).data) = true ∧
      6 ≤ (("0xDEMO") ++ takeStr 56 uuidHex).length) ∧
    ((transfer_usdc false remote uuidHex to_address amount
        description).1.success = false ↔
      (pyAddressMatch to_address = false ∨ amount ≤ 0)) := by
  constructor
  · intro hspec hamt
    have hpy : pyAddressMatch to_address = true := spec_implies_py _ hspec
    have hnle : ¬ amount ≤ 0 := not_le.mpr hamt
    refine ⟨?_, ?_, ?_⟩
    · unfold transfer_usdc
      rw [if_neg (by simp [hpy]), if_neg hnle, if_pos rfl]
      rfl
    · show (("0xDEMO").data).isPrefixOf
        ((("0xDEMO").data) ++ (takeStr 56 uuidHex).data) = true
      exact isPrefixOf_self_append _ _
    · show 6 ≤ ((("0xDEMO").data) ++ (takeStr 56 uuidHex).data).length
      rw [List.length_append]
      have h6 : (("0xDEMO").data).length = 6 := rfl
      omega
  · by_cases hpy : pyAddressMatch to_address = false
    · unfold transfer_usdc
      rw [if_pos hpy]
      simp [TransferResult.success, hpy]
    · have hpy' : pyAddressMatch to_address = true := by
        revert hpy
        cases pyAddressMatch to_address <;> simp
      by_cases ha : amount ≤ 0
      · unfold transfer_usdc
        rw [if_neg (by simp [hpy']), if_pos ha]
        simp [TransferResult.success, ha]
      · unfold transfer_usdc
        rw [if_neg (by simp [hpy']), if_neg ha, if_pos rfl]
        simp [demo_transfer, TransferResult.success, hpy', ha]

/-- Witness for C8: the catalog's weather address and amount 1 in demo
mode yield the synthetic `0xDEMO…` success result. -/
theorem claim_C8_witness :
    (transfer_usdc false (.ok ("")) ("0123456789abcdef")
      ("0x1234567890abcdef1234567890abcdef12345678") 1
      ("weather API call")).1 =
      .ok (("0xDEMO") ++ takeStr 56 ("0123456789abcdef")) 1
        ("0x1234567890abcdef1234567890abcdef12345678")
        ("weather API call") true :=
  ((claim_C8 (.ok ("")) ("0123456789abcdef")
    ("0x1234567890abcdef1234567890abcdef12345678")
    ("weather API call") 1).1 (by decide) (by norm_num)).1

/-! Service gateway branch lemmas. -/

theorem call_service_unknown (env : Env) (now : ℚ) (st : ServiceState)
    (name : String) (params : List (String × PValue))
    (h : SERVICE_COSTS.lookup name = Option.none) :
    call_service env now st name params =
      (.error (("Unknown service: ") ++ name), st,
       ⟨false, false, false, false, false, 0⟩) := by
  unfold call_service
  rw [h]

theorem call_service_denied (env : Env) (now : ℚ) (st : ServiceState)
    (name : String) (params : List (String × PValue)) (c : ℚ)
    (hc : SERVICE_COSTS.lookup name = Option.some c)
    (hA : (st.limiter.allow now).1 = false) :
    call_service env now st name params =
      (.error ("Rate limit exceeded. Please try again later."),
       { st with limiter := (st.limiter.allow now).2 },
       ⟨true, false, false, false, false, 0⟩) := by
  simp [call_service, hc, hA]

theorem call_service_payfail (env : Env) (now : ℚ) (st : ServiceState)
    (name : String) (params : List (String × PValue)) (c : ℚ)
    (hc : SERVICE_COSTS.lookup name = Option.some c)
    (hA : (st.limiter.allow now).1 = true)
    (hP : (payOf env name c).1.success = false) :
    call_service env now st name params =
      (.errorPayment ("Payment failed") (payOf env name c).1,
       { st with limiter := (st.limiter.allow now).2 },
       ⟨true, true, true, (payOf env name c).2, false, 0⟩) := by
  simp [call_service, hc, hA, hP]

theorem call_service_paid (env : Env) (now : ℚ) (st : ServiceState)
    (name : String) (params : List (String × PValue)) (c : ℚ)
    (hc : SERVICE_COSTS.lookup name = Option.some c)
    (hA : (st.limiter.allow now).1 = true)
    (hP : (payOf env name c).1.success = true) :
    call_service env now st name params =
      (.ok (execute_service env name (sanitizedParams params)) c
         (payOf env name c).1.tx_hash,
       { limiter := (st.limiter.allow now).2,
         store := st.store ++ [⟨name, sanitizedParams params, c,
           (payOf env name c).1.tx_hash,
           execute_service env name (sanitizedParams params)⟩],
         call_history := st.call_history ++ [⟨name, sanitizedParams params,
           c, (payOf env name c).1.tx_hash,
           execute_service env name (sanitizedParams params)⟩] },
       ⟨true, true, true, (payOf env name c).2, true, 1⟩) := by
  simp [call_service, hc, hA, hP]

theorem call_ok_record (env : Env) (now : ℚ) (st : ServiceState)
    (name : String) (params : List (String × PValue))
    (h : (call_service env now st name params).1.isOk = true) :
    ∃ c, SERVICE_COSTS.lookup name = Option.some c ∧
      (call_service env now st name params).2.1.store =
        st.store ++ [⟨name, sanitizedParams params, c,
          (payOf env name c).1.tx_hash,
          execute_service env name (sanitizedParams params)⟩] := by
  rcases hL : SERVICE_COSTS.lookup name with _ | c
  · rw [call_service_unknown env now st name params hL] at h
    simp [CallResult.isOk] at h
  · refine ⟨c, rfl, ?_⟩
    by_cases hA : (st.limiter.allow now).1 = true
    · by_cases hP : (payOf env name c).1.success = true
      · rw [call_service_paid env now st name params c hL hA hP]
      · have hP' : (payOf env name c).1.success = false := by
          revert hP
          cases (payOf env name c).1.success <;> simp
        rw [call_service_payfail env now st name params c hL hA hP'] at h
        simp [CallResult.isOk] at h
    · have hA' : (st.limiter.allow now).1 = false := by
        revert hA
        cases (st.limiter.allow now).1 <;> simp
      rw [call_service_denied env now st name params c hL hA'] at h
      simp [CallResult.isOk] at h

/-- Claim C5: an unknown service name yields the error result and leaves
everything untouched — the catalog lookup precedes the rate-limiter check,
so no admission is consumed, no payment attempted, no record written. -/
theorem claim_C5 (env : Env) (now : ℚ) (st : ServiceState) (name : String)
    (params : List (String × PValue))
    (h : SERVICE_COSTS.lookup name = Option.none) :
    (call_service env now st name params).1 =
      .error (("Unknown service: ") ++ name) ∧
    (call_service env now st name params).2.1 = st ∧
    (call_service env now st name params).2.2 =
      ⟨false, false, false, false, false, 0⟩ := by
  rw [call_service_unknown env now st name params h]
  exact ⟨rfl, rfl, rfl⟩

/-- Witness for C5 at the service name `"unknown"`. -/
theorem claim_C5_witness :
    (call_service demoEnv 0 (freshState 30 60) ("unknown") []).2.1 =
      freshState 30 60 :=
  (claim_C5 demoEnv 0 (freshState 30 60) ("unknown") [] (by decide)).2.1

/-- Claim C1: with the service in the catalog, a rate-limit denial writes no
record and attempts no payment; when admission succeeds and the transfer
reports failure, `call_service` returns the payment error, executes no
service, persists nothing — yet the limiter has already recorded the call
timestamp (admission precedes payment); when the transfer succeeds, exactly
one record is appended to the store and the result is the success dict. -/
theorem claim_C1 (env : Env) (now : ℚ) (st : ServiceState) (name : String)
    (params : List (String × PValue)) (c : ℚ)
    (hc : SERVICE_COSTS.lookup name = Option.some c) :
    ((st.limiter.allow now).1 = false →
      (call_service env now st name params).2.1.store = st.store ∧
      (call_service env now st name params).2.2.paymentAttempted = false ∧
      (call_service env now st name params).2.2.recordsWritten = 0) ∧
    ((st.limiter.allow now).1 = true →
      (payOf env name c).1.success = false →
      (call_service env now st name params).1 =
        .errorPayment ("Payment failed") (payOf env name c).1 ∧
      (call_service env now st name params).2.1.store = st.store ∧
      (call_service env now st name params).2.2.serviceExecuted = false ∧
      (call_service env now st name params).2.2.recordsWritten = 0 ∧
      (call_service env now st name params).2.1.limiter.calls =
        (st.limiter.prune now).calls ++ [now]) ∧
    ((st.limiter.allow now).1 = true →
      (payOf env name c).1.success = true →
      (call_service env now st name params).2.1.store =
        st.store ++ [⟨name, sanitizedParams params, c,
          (payOf env name c).1.tx_hash,
          execute_service env name (sanitizedParams params)⟩] ∧
      (call_service env now st name params).2.2.recordsWritten = 1 ∧
      (call_service env now st name params).1.isOk = true) := by
  refine ⟨?_, ?_, ?_⟩
  · intro hA
    rw [call_service_denied env now st name params c hc hA]
    exact ⟨rfl, rfl, rfl⟩
  · intro hA hP
    rw [call_service_payfail env now st name params c hc hA hP]
    exact ⟨rfl, rfl, rfl, rfl, allow_true_snd st.limiter now hA⟩
  · intro hA hP
    rw [call_service_paid env now st name params c hc hA hP]
    exact ⟨rfl, rfl, rfl⟩

/-- Witness for C1: one demo-mode weather call on a fresh system persists
exactly one record and reports success. -/
theorem claim_C1_witness :
    (call_service demoEnv 0 (freshState 30 60) ("weather")
      [(("city"), PValue.str ("Tokyo"))]).2.1.store =
      (freshState 30 60).store ++ [⟨("weather"),
        sanitizedParams [(("city"), PValue.str ("Tokyo"))], 0.001,
        (payOf demoEnv ("weather") 0.001).1.tx_hash,
        execute_service demoEnv ("weather")
          (sanitizedParams [(("city"), PValue.str ("Tokyo"))])⟩] ∧
    (call_service demoEnv 0 (freshState 30 60) ("weather")
      [(("city"), PValue.str ("Tokyo"))]).2.2.recordsWritten = 1 ∧
    (call_service demoEnv 0 (freshState 30 60) ("weather")
      [(("city"), PValue.str ("Tokyo"))]).1.isOk = true :=
  (claim_C1 demoEnv 0 (freshState 30 60) ("weather")
    [(("city"), PValue.str ("Tokyo"))] 0.001 (by decide)).2.2
    (by decide) (by decide)

/-! Sanitization claims. -/

/-- Counterexample to claim C3 as stated: the sanitizer's regex keeps the
whole class `\s`, which contains the control characters tab, newline, etc.,
so the string parameter `"a\tb"` — containing the non-printable control
character TAB (code point 9) — passes through `_sanitize` unchanged and is
persisted verbatim by a successful `call_service`; the persisted value is
not cleaned of all non-printable/control characters. -/
theorem claim_C3_counterexample :
    sanitize ("a\tb") = ("a\tb") ∧
    ((call_service demoEnv 0 (freshState 30 60) ("weather")
        [(("city"), PValue.str ("a\tb"))]).2.1.store.map Record.params) =
      [[(("city"), PValue.str ("a\tb"))]] ∧
    (Char.ofNat 9) ∈ ("a\tb").data ∧ (Char.ofNat 9).toNat < 32 := by
  decide

/-- Claim C3 as amended: every string parameter reaching the executed
service and the persisted record has passed `_sanitize`, which deletes all
characters outside word characters, whitespace and `.,!?'-` (in particular
all markup characters and all non-whitespace control characters, while
whitespace control characters such as TAB survive) and truncates to at most
200 characters; the markup example is reduced to `Tokyoscriptalert1script`,
in which the original never appears verbatim, and a 500-character input is
cut to 200. -/
theorem claim_C3 :
    (∀ v : String, (sanitize v).data.all keepChar = true ∧
      (sanitize v).data.length ≤ 200) ∧
    (∀ (env : Env) (now : ℚ) (st : ServiceState) (name : String)
      (params : List (String × PValue)),
      (call_service env now st name params).1.isOk = true →
      ∃ c, (call_service env now st name params).2.1.store =
        st.store ++ [⟨name, sanitizedParams params, c,
          (payOf env name c).1.tx_hash,
          execute_service env name (sanitizedParams params)⟩]) ∧
    sanitize ("Tokyo<script>alert(1)</script>") =
      ("Tokyoscriptalert1script") ∧
    containsSub (("Tokyo<script>alert(1)</script>").data)
      (("Tokyoscriptalert1script").data) = false ∧
    (sanitize (String.mk (List.replicate 500 ('a')))).data.length = 200 := by
  refine ⟨?_, ?_, by decide, by decide, ?_⟩
  · intro v
    constructor
    · refine List.all_eq_true.mpr ?_
      intro c hc
      exact List.of_mem_filter (List.take_subset _ _ hc)
    · exact List.length_take_le _ _
  · intro env now st name params h
    rcases call_ok_record env now st name params h with ⟨c, _, hstore⟩
    exact ⟨c, hstore⟩
  · show (((List.replicate 500 ('a')).filter keepChar).take
      MAX_PARAM_LEN).length = 200
    have hfilter : (List.replicate 500 ('a')).filter keepChar =
        List.replicate 500 ('a') := by
      refine List.filter_eq_self.mpr ?_
      intro a ha
      rw [List.eq_of_mem_replicate ha]
      decide
    rw [hfilter, List.length_take, List.length_replicate]
    rfl

/-- Witness for C3's amended universal part: a concrete successful demo
call persists the sanitized parameter list. -/
theorem claim_C3_witness :
    ∃ c, (call_service demoEnv 0 (freshState 30 60) ("news")
        [(("topic"), PValue.str ("AI"))]).2.1.store =
      (freshState 30 60).store ++ [⟨("news"),
        sanitizedParams [(("topic"), PValue.str ("AI"))], c,
        (payOf demoEnv ("news") c).1.tx_hash,
        execute_service demoEnv ("news")
          (sanitizedParams [(("topic"), PValue.str ("AI"))])⟩] :=
  claim_C3.2.1 demoEnv 0 (freshState 30 60) ("news")
    [(("topic"), PValue.str ("AI"))] (by decide)

/-- Claim C10: sanitization in `call_service` is applied only to values of
string type — the dict comprehension preserves the key sequence, leaves
every non-string value untouched, and the executed service and the
persisted record both receive exactly this sanitized parameter list. -/
theorem claim_C10 (params : List (String × PValue)) :
    ((sanitizedParams params).map Prod.fst = params.map Prod.fst) ∧
    (∀ k v, (k, v) ∈ params → (∀ s, v ≠ PValue.str s) →
      (k, v) ∈ sanitizedParams params) ∧
    (∀ (env : Env) (now : ℚ) (st : ServiceState) (name : String),
      (call_service env now st name params).1.isOk = true →
      ∃ c, (call_service env now st name params).1 =
        .ok (execute_service env name (sanitizedParams params)) c
          (payOf env name c).1.tx_hash ∧
        (call_service env now st name params).2.1.store =
          st.store ++ [⟨name, sanitizedParams params, c,
            (payOf env name c).1.tx_hash,
            execute_service env name (sanitizedParams params)⟩]) := by
  refine ⟨?_, ?_, ?_⟩
  · simp [sanitizedParams]
  · intro k v hmem hns
    have hfix : sanitizeValue v = v := by
      cases v with
      | str s => exact absurd rfl (hns s)
      | intv n => rfl
      | float q => rfl
      | boolv b => rfl
      | none => rfl
    refine List.mem_map.mpr ⟨(k, v), hmem, ?_⟩
    simp [hfix]
  · intro env now st name h
    rcases call_ok_record env now st name params h with ⟨c, hc, hstore⟩
    refine ⟨c, ?_, hstore⟩
    by_cases hA : (st.limiter.allow now).1 = true
    · by_cases hP : (payOf env name c).1.success = true
      · rw [call_service_paid env now st name params c hc hA hP]
      · have hP' : (payOf env name c).1.success = false := by
          revert hP
          cases (payOf env name c).1.success <;> simp
        rw [call_service_payfail env now st name params c hc hA hP'] at h
        simp [CallResult.isOk] at h
    · have hA' : (st.limiter.allow now).1 = false := by
        revert hA
        cases (st.limiter.allow now).1 <;> simp
      rw [call_service_denied env now st name params c hc hA'] at h
      simp [CallResult.isOk] at h

/-- Witness for C10: an integer-valued parameter passes through the
sanitizer unchanged. -/
theorem claim_C10_witness :
    (("n"), PValue.intv 5) ∈ sanitizedParams [(("n"), PValue.intv 5)] :=
  (claim_C10 [(("n"), PValue.intv 5)]).2.1 ("n") (PValue.intv 5)
    (by decide) (fun s => by simp)

/-! Spend accounting. -/

theorem total_append (a b : List Record) :
    get_total_spent (a ++ b) = get_total_spent a + get_total_spent b := by
  simp [get_total_spent]

/-- Claim C6: `get_total_spent` sums the cost column and is 0 on an empty
store; every record written by a successful `call_service` carries the
catalog cost of its service, and a run of invocations that all succeed
raises the total by exactly the sum of the catalog costs of the called
services (so K successes on a fresh store total the sum of their costs). -/
theorem claim_C6 :
    get_total_spent [] = 0 ∧
    ∀ (inputs : List CallInput) (st : ServiceState),
      (∀ r ∈ (runCalls st inputs).1, r.isOk = true) →
      get_total_spent (runCalls st inputs).2.store =
        get_total_spent st.store +
          (inputs.map (fun i => costOf i.service_name)).sum ∧
      ∀ rc ∈ (runCalls st inputs).2.store,
        rc ∈ st.store ∨ rc.cost = costOf rc.service := by
  refine ⟨rfl, ?_⟩
  intro inputs
  induction inputs with
  | nil =>
    intro st h
    exact ⟨by simp [runCalls], fun rc hrc => Or.inl hrc⟩
  | cons i rest ih =>
    intro st h
    have hstep : runCalls st (i :: rest) =
        ((call_service i.env i.now st i.service_name i.params).1 ::
          (runCalls (call_service i.env i.now st i.service_name
            i.params).2.1 rest).1,
         (runCalls (call_service i.env i.now st i.service_name
            i.params).2.1 rest).2) := rfl
    rw [hstep] at h ⊢
    have hHead : (call_service i.env i.now st i.service_name
        i.params).1.isOk = true := h _ (List.mem_cons_self _ _)
    have hTail : ∀ r ∈ (runCalls (call_service i.env i.now st i.service_name
        i.params).2.1 rest).1, r.isOk = true :=
      fun r hr => h r (List.mem_cons_of_mem _ hr)
    rcases call_ok_record i.env i.now st i.service_name i.params hHead with
      ⟨c, hc, hstore⟩
    have hcost : costOf i.service_name = c := by
      rw [costOf, hc]
      rfl
    rcases ih (call_service i.env i.now st i.service_name i.params).2.1
      hTail with ⟨ihTotal, ihRecs⟩
    constructor
    · rw [ihTotal, hstore, total_append, List.map_cons, List.sum_cons]
      have h1 : get_total_spent [⟨i.service_name, sanitizedParams i.params,
          c, (payOf i.env i.service_name c).1.tx_hash,
          execute_service i.env i.service_name
            (sanitizedParams i.params)⟩] = c := by
        simp [get_total_spent]
      rw [h1, hcost]
      ring
    · intro rc hrc
      rcases ihRecs rc hrc with hin | hcosteq
      · rw [hstore] at hin
        rcases List.mem_append.mp hin with h1 | h2
        · exact Or.inl h1
        · right
          rw [List.mem_singleton.mp h2]
          exact hcost.symm
      · exact Or.inr hcosteq

/-- Witness for C6: two successful demo-mode calls (weather then stock) on
a fresh store raise the total by the sum of their catalog costs. -/
theorem claim_C6_witness :
    get_total_spent (runCalls (freshState 30 60)
      [⟨demoEnv, 0, ("weather"), [(("city"), PValue.str ("Tokyo"))]⟩,
       ⟨demoEnv, 0, ("stock"), [(("symbol"), PValue.str ("AAPL"))]⟩]).2.store =
      get_total_spent (freshState 30 60).store +
        ([⟨demoEnv, 0, ("weather"), [(("city"), PValue.str ("Tokyo"))]⟩,
          ⟨demoEnv, 0, ("stock"),
            [(("symbol"), PValue.str ("AAPL"))]⟩].map
          (fun i => costOf (CallInput.service_name i))).sum :=
  (claim_C6.2
    [⟨demoEnv, 0, ("weather"), [(("city"), PValue.str ("Tokyo"))]⟩,
     ⟨demoEnv, 0, ("stock"), [(("symbol"), PValue.str ("AAPL"))]⟩]
    (freshState 30 60) (by decide)).1

/-! Orchestrator routing. -/

/-- Counterexample to claim C7 as stated: the basic keyword-routing path
checks `balance` before `weather`, so the query `"weather balance"` —
containing both the top-priority keyword `weather` and the lower-priority
keyword `balance` — is routed to the balance branch there, while the
AI-response path routes it to weather; the two paths do not share the
claimed priority order. -/
theorem claim_C7_counterexample :
    ai_intent ("weather balance") = Intent.weather ∧
    basic_intent ("weather balance") = Intent.balance ∧
    Intent.balance ≠ Intent.weather := by
  decide

/-- Claim C7 as amended: the AI-response path classifies by first match in
the order weather > stock/price/ticker > news > balance/wallet > history >
fallback, but the basic routing path checks balance first and knows fewer
keywords: balance > weather > stock > news > history > fallback (no
`price`, `ticker` or `wallet` there). -/
theorem claim_C7 (q : String) :
    (hasKw q ("weather") = true → ai_intent q = Intent.weather) ∧
    (hasKw q ("weather") = false →
      (hasKw q ("stock") || hasKw q ("price") || hasKw q ("ticker")) = true →
      ai_intent q = Intent.stock) ∧
    (hasKw q ("weather") = false → hasKw q ("stock") = false →
      hasKw q ("price") = false → hasKw q ("ticker") = false →
      hasKw q ("news") = true → ai_intent q = Intent.news) ∧
    (hasKw q ("weather") = false → hasKw q ("stock") = false →
      hasKw q ("price") = false → hasKw q ("ticker") = false →
      hasKw q ("news") = false →
      (hasKw q ("balance") || hasKw q ("wallet")) = true →
      ai_intent q = Intent.balance) ∧
    (hasKw q ("weather") = false → hasKw q ("stock") = false →
      hasKw q ("price") = false → hasKw q ("ticker") = false →
      hasKw q ("news") = false → hasKw q ("balance") = false →
      hasKw q ("wallet") = false → hasKw q ("history") = true →
      ai_intent q = Intent.history) ∧
    (hasKw q ("balance") = true → basic_intent q = Intent.balance) ∧
    (hasKw q ("balance") = false → hasKw q ("weather") = true →
      basic_intent q = Intent.weather) ∧
    (hasKw q ("balance") = false → hasKw q ("weather") = false →
      hasKw q ("stock") = true → basic_intent q = Intent.stock) ∧
    (hasKw q ("balance") = false → hasKw q ("weather") = false →
      hasKw q ("stock") = false → hasKw q ("news") = true →
      basic_intent q = Intent.news) ∧
    (hasKw q ("balance") = false → hasKw q ("weather") = false →
      hasKw q ("stock") = false → hasKw q ("news") = false →
      hasKw q ("history") = true → basic_intent q = Intent.history) := by
  refine ⟨?_, ?_, ?_, ?_, ?_, ?_, ?_, ?_, ?_, ?_⟩
  · intro h1
    simp [ai_intent, h1]
  · intro h1 h2
    simp [ai_intent, h1, h2]
  · intro h1 h2 h3 h4 h5
    simp [ai_intent, h1, h2, h3, h4, h5]
  · intro h1 h2 h3 h4 h5 h6
    simp [ai_intent, h1, h2, h3, h4, h5, h6]
  · intro h1 h2 h3 h4 h5 h6 h7 h8
    simp [ai_intent, h1, h2, h3, h4, h5, h6, h7, h8]
  · intro h1
    simp [basic_intent, h1]
  · intro h1 h2
    simp [basic_intent, h1, h2]
  · intro h1 h2 h3
    simp [basic_intent, h1, h2, h3]
  · intro h1 h2 h3 h4
    simp [basic_intent, h1, h2, h3, h4]
  · intro h1 h2 h3 h4 h5
    simp [basic_intent, h1, h2, h3, h4, h5]

/-- Witness for C7's amended characterization at concrete queries. -/
theorem claim_C7_witness :
    ai_intent ("stock or weather") = Intent.weather ∧
    basic_intent ("my balance and the weather") = Intent.balance := by
  constructor
  · exact (claim_C7 ("stock or weather")).1 (by decide)
  · exact (claim_C7 ("my balance and the weather")).2.2.2.2.2.1 (by decide)

end AgenticWallet
